import Mathlib

/-!
Shallow embedding of `src/frost/__init__.py` (the frost → promscale incremental
sync job) and verification of its specification claims.

Modelling conventions:
* A pendulum `DateTime` is modelled as rational seconds since the Unix epoch
  (`ℚ`); a pendulum `Duration` likewise as rational seconds.  `pendulum.duration`
  takes positional arguments `(days, seconds, ...)`, which is mirrored by
  `pendulum_duration`.
* HTTP interactions are modelled by their observable data: the promscale query
  endpoint is a function from the lookback string to a `QueryResponse`
  (status code, body text, and the parsed `data.result` array, each entry
  reduced to the numeric second component of its `value` pair); the frost
  observations endpoint is an already-parsed `ApiResponse`; the write endpoint
  is just its status code.
* Python exceptions are modelled with `Except String`, carrying the exception
  message (the orchestrator string-matches on it).  Numeric string payloads
  (`float(...)` parses) are modelled as already-parsed exact rationals.
* Python messages wrap names in single quotes; the quotes are omitted here,
  which is irrelevant to every claim (only the substring "No data found"
  matters to control flow).
-/

namespace Frost

/-- A pendulum `DateTime`, as rational seconds since the Unix epoch. -/
abbrev DateTime := ℚ

/-- `pendulum.duration(days, seconds)`: the first positional argument is DAYS
and the second is SECONDS (mirroring `datetime.timedelta`).  Result in
seconds. -/
def pendulum_duration (days : ℚ) (seconds : ℚ) : ℚ :=
  days * 86400 + seconds

/-- `pendulum.from_timestamp(s)`: seconds since epoch to a `DateTime`. -/
def from_timestamp (s : ℚ) : DateTime := s

/-- `DateTime.int_timestamp`: `int(self.timestamp())`, i.e. the whole-second
part of the epoch timestamp, truncated toward zero as Python `int()` does. -/
def int_timestamp (t : DateTime) : ℤ :=
  t.num.tdiv (t.den : ℤ)

/-- One entry of a measurement's `observations` array (its parsed `value`). -/
structure Observation where
  value : ℚ
deriving DecidableEq, Inhabited

/-- One entry of the frost `data` array: a reference time and observations. -/
structure Measurement where
  referenceTime : DateTime
  observations : List Observation
deriving DecidableEq, Inhabited

/-- One promscale sample: `[timestampMillis, value]`. -/
structure Sample where
  timestampMillis : ℤ
  value : ℚ
deriving DecidableEq, Inhabited

/-- The promscale write payload built by `get_observation_samples`. -/
structure TimeSeries where
  labels : List (String × String)
  samples : List Sample
deriving DecidableEq, Inhabited

/-- Parsed JSON body of the frost observations endpoint: either an `error`
object (message, reason) or a `data` array of measurements. -/
structure ApiResponse where
  error : Option (String × String)
  data : List Measurement
deriving DecidableEq, Inhabited

/-- The per-measurement body of the loop in `get_observation_samples`:
`sample = [1000 * parse(referenceTime).int_timestamp, float(observations[0].value)]`.
`none` models the `IndexError` raised when `observations` is empty. -/
def build_sample (m : Measurement) : Option Sample :=
  m.observations.head?.map fun o =>
    { timestampMillis := 1000 * int_timestamp m.referenceTime
      value := o.value }

/-- `get_observation_samples` (lines 36-77), from the parsed response body on:
raise `ValueError(message - reason)` on an error body, otherwise build the
sample list in input order and attach the fixed labels. -/
def get_observation_samples (resp : ApiResponse) (metric_name : String)
    (sensor_id : String) : Except String TimeSeries :=
  match resp.error with
  | some (message, reason) => .error (message ++ " - " ++ reason)
  | none =>
    match resp.data.mapM build_sample with
    | none => .error "list index out of range"
    | some samples =>
      .ok { labels := [("__name__", metric_name), ("location", "outside"),
                       ("sensor", sensor_id)]
            samples := samples }

/-- Response of the promscale query endpoint: HTTP status, body text, and the
parsed `data.result` array (each entry reduced to the parsed numeric second
component of its `value` pair, i.e. `float(result[i].value[1])`). -/
structure QueryResponse where
  status : ℕ
  text : String
  result : List ℚ
deriving DecidableEq, Inhabited

/-- `200 <= status < 300`, the success test used for both the query response
(line 87) and the write response (line 166). -/
def is2xx (status : ℕ) : Bool :=
  decide (200 ≤ status) && decide (status < 300)

/-- `get_last_timestamp_in_metric` (lines 81-105).  `Q` is the promscale query
endpoint for this metric, keyed by the lookback string; `startOfMonth` is the
value of `pendulum.now().start_of(month)` (the pendulum calendar computation is
an external collaborator).  Non-2xx raises `ValueError`; an empty result with a
lookback other than `"30d"` recurses once with `"30d"`; an empty result at
`"30d"` returns the start of the month; otherwise the first result's value is
parsed as a float timestamp. -/
def get_last_timestamp_in_metric (Q : String → QueryResponse)
    (startOfMonth : DateTime) (metric_name : String) (lookback : String) :
    Except String DateTime :=
  let res := Q lookback
  if is2xx res.status = false then
    .error ("Unable to get last timestamp of " ++ metric_name ++ ": " ++ res.text)
  else
    match res.result with
    | [] =>
      if _h : lookback ≠ "30d" then
        get_last_timestamp_in_metric Q startOfMonth metric_name "30d"
      else
        .ok startOfMonth
    | timestamp_s :: _ => .ok (from_timestamp timestamp_s)
termination_by (if lookback = "30d" then 0 else 1)
decreasing_by simp_all

/-- Number of (recursive) invocations of `get_last_timestamp_in_metric`
performed when called with the given endpoint and lookback; same recursion
structure as the function itself. -/
def get_last_timestamp_calls (Q : String → QueryResponse) (lookback : String) :
    ℕ :=
  let res := Q lookback
  if is2xx res.status = false then 1
  else
    match res.result with
    | [] =>
      if _h : lookback ≠ "30d" then
        1 + get_last_timestamp_calls Q "30d"
      else
        1
    | _ :: _ => 1
termination_by (if lookback = "30d" then 0 else 1)
decreasing_by simp_all

/-- Python's `needle in haystack` substring test on strings, used by the
orchestrator as `if No data found in str(e)`. -/
def pyIn (needle haystack : String) : Bool :=
  (List.range (haystack.data.length + 1)).any fun i =>
    needle.data.isPrefixOf (haystack.data.drop i)

/-- Terminal state of one metric in the per-metric loop of `main`. -/
inductive MetricOutcome where
  /-- Fetch, build and write all succeeded (write status 2xx). -/
  | succeeded
  /-- The write endpoint returned a non-2xx status; logged as an error. -/
  | writeFailed (status : ℕ)
  /-- `end_time < start_time_`: the metric is skipped via `continue`. -/
  | skippedInvalidWindow
  /-- An exception whose message contains `No data found`: skipped via
  `continue`. -/
  | skippedNoData
  /-- Any other exception: logged and `error_count` incremented. -/
  | failed (message : String)
deriving DecidableEq, Inhabited

/-- The external world one metric's iteration interacts with: the promscale
query endpoint (keyed by lookback), the frost observations endpoint's parsed
body, and the status code of the promscale write. -/
structure MetricEnv where
  query : String → QueryResponse
  api : ApiResponse
  writeStatus : ℕ

/-- Lines 141-144: `start_time_ = start_time if start_time else
get_last_timestamp_in_metric(metric_name) + pendulum.duration(0, 1)`.
The default lookback argument is `"1d"`. -/
def resolve_start (start_time : Option DateTime) (Q : String → QueryResponse)
    (startOfMonth : DateTime) (metric_name : String) : Except String DateTime :=
  match start_time with
  | some t => .ok t
  | none =>
    (get_last_timestamp_in_metric Q startOfMonth metric_name "1d").map
      (· + pendulum_duration 0 1)

/-- The body of the `try` block of one iteration of the metric loop
(lines 140-171): resolve the window start, skip (`continue`) if
`end_time < start_time_`, fetch and build the time series, post it, and
classify the write status.  An `Except.error` is a Python exception escaping
to the `except` clause. -/
def process_metric_body (start_time : Option DateTime) (end_time : DateTime)
    (startOfMonth : DateTime) (sensor_id : String) (metric_name : String)
    (env : MetricEnv) : Except String MetricOutcome :=
  match resolve_start start_time env.query startOfMonth metric_name with
  | .error e => .error e
  | .ok start_time_ =>
    if end_time < start_time_ then
      .ok .skippedInvalidWindow
    else
      match get_observation_samples env.api metric_name sensor_id with
      | .error e => .error e
      | .ok _timeseries =>
        if is2xx env.writeStatus then
          .ok .succeeded
        else
          .ok (.writeFailed env.writeStatus)

/-- One full iteration of the metric loop including the `except` clause
(lines 172-178): an exception whose message contains `No data found` is a
benign skip; any other exception is a failure. -/
def process_metric (start_time : Option DateTime) (end_time : DateTime)
    (startOfMonth : DateTime) (sensor_id : String) (metric_name : String)
    (env : MetricEnv) : MetricOutcome :=
  match process_metric_body start_time end_time startOfMonth sensor_id
      metric_name env with
  | .ok outcome => outcome
  | .error e =>
    if pyIn "No data found" e then .skippedNoData else .failed e

/-- One entry of the metric catalog together with its external world:
`(element_id, metric_name)` as in the literal list of line 136. -/
structure MetricJob where
  element_id : String
  metric_name : String
  env : MetricEnv

/-- The metric loop of `main` (lines 136-178): each catalog entry is processed
in order, each iteration terminating in its own outcome. -/
def run_metrics (start_time : Option DateTime) (end_time : DateTime)
    (startOfMonth : DateTime) (sensor_id : String) (jobs : List MetricJob) :
    List MetricOutcome :=
  jobs.map fun j =>
    process_metric start_time end_time startOfMonth sensor_id j.metric_name
      j.env

/-- Whether an outcome is the `except` branch that increments `error_count`. -/
def is_failed : MetricOutcome → Bool
  | .failed _ => true
  | _ => false

/-- The final value of `error_count`: the number of iterations that took the
incrementing `except` branch. -/
def error_count (outcomes : List MetricOutcome) : ℕ :=
  outcomes.countP is_failed

/-- Lines 181-183: `exit(1)` when `error_count > 0`, otherwise `main` returns
normally and the process exits 0. -/
def exit_code (outcomes : List MetricOutcome) : ℕ :=
  if 0 < error_count outcomes then 1 else 0

/-! ### Concrete instantiations used by witnesses and counterexamples -/

/-- A promscale query endpoint: empty result at every lookback except `"30d"`,
where the stored watermark is unix second `1700000000` (the spec scenario:
`value=[_, "1700000000"]`, i.e. 2023-11-14T22:13:20Z). -/
def Q_example : String → QueryResponse := fun lookback =>
  if lookback = "30d" then { status := 200, text := "", result := [1700000000] }
  else { status := 200, text := "", result := [] }

/-- A promscale query endpoint with no stored data at any lookback. -/
def Q_empty : String → QueryResponse := fun _ =>
  { status := 200, text := "", result := [] }

/-- A promscale query endpoint that answers 503 at every lookback (even though
its body carries a value). -/
def Q_unavailable : String → QueryResponse := fun _ =>
  { status := 503, text := "Service Unavailable", result := [5] }

/-- A world where everything succeeds up to the write, which returns 500. -/
def env500 : MetricEnv :=
  { query := Q_empty
    api := { error := none, data := [] }
    writeStatus := 500 }

/-- A world where everything succeeds (write returns 204). -/
def envOk : MetricEnv :=
  { query := Q_empty
    api := { error := none, data := [] }
    writeStatus := 204 }

/-- A world where the measurement API returns a structured error that is not
a no-data error. -/
def envBoom : MetricEnv :=
  { query := Q_empty
    api := { error := some ("boom", "bad"), data := [] }
    writeStatus := 204 }

/-- A world where the measurement API returns the frost no-data error. -/
def envNoData : MetricEnv :=
  { query := Q_empty
    api := { error := some ("No data found", "check your parameters"), data := [] }
    writeStatus := 204 }

/-- A catalog entry whose iteration succeeds. -/
def jobOk : MetricJob :=
  { element_id := "air_temperature", metric_name := "temperature_met", env := envOk }

/-- A catalog entry whose iteration fails with a non-benign error. -/
def jobFail : MetricJob :=
  { element_id := "relative_humidity", metric_name := "humidity_met", env := envBoom }

/-- A catalog entry whose iteration hits the frost no-data error. -/
def jobNoData : MetricJob :=
  { element_id := "relative_humidity", metric_name := "humidity_met", env := envNoData }

/-- A measurement whose reference time is 2023-01-01T00:00:05Z (unix second
1672531205). -/
def meas_example : Measurement :=
  { referenceTime := 1672531205, observations := [{ value := 5 }] }

/-- A measurement list that is neither sorted nor duplicate-free, and whose
first measurement carries two observations. -/
def resp_example : ApiResponse :=
  { error := none
    data := [{ referenceTime := 10, observations := [{ value := 2 }, { value := 7 }] },
             { referenceTime := 5, observations := [{ value := 3 }] },
             { referenceTime := 10, observations := [{ value := 2 }] }] }

/-! ### Helper lemmas -/

/-- An empty result at a lookback other than `"30d"` makes the resolver retry
with the `"30d"` lookback. -/
theorem gltim_fallback (Q : String → QueryResponse) (som : DateTime) (m lb : String)
    (h : is2xx (Q lb).status = true) (he : (Q lb).result = []) (hne : lb ≠ "30d") :
    get_last_timestamp_in_metric Q som m lb = get_last_timestamp_in_metric Q som m "30d" := by
  rw [get_last_timestamp_in_metric]
  simp [h, he, hne]

/-- An empty result at the `"30d"` lookback yields the start-of-month default. -/
theorem gltim_30d_empty (Q : String → QueryResponse) (som : DateTime) (m : String)
    (h : is2xx (Q "30d").status = true) (he : (Q "30d").result = []) :
    get_last_timestamp_in_metric Q som m "30d" = .ok som := by
  rw [get_last_timestamp_in_metric]
  simp [h, he]

/-- A resolution starting at the `"30d"` lookback performs exactly one call. -/
theorem gltim_calls_30d (Q : String → QueryResponse) :
    get_last_timestamp_calls Q "30d" = 1 := by
  rw [get_last_timestamp_calls]
  rcases hr : (Q "30d").result with _ | ⟨a, l⟩ <;> simp [hr]

/-- The empty-result fallback performs exactly one recursive call. -/
theorem gltim_calls_fallback (Q : String → QueryResponse) (lb : String)
    (h : is2xx (Q lb).status = true) (he : (Q lb).result = []) (hne : lb ≠ "30d") :
    get_last_timestamp_calls Q lb = 1 + get_last_timestamp_calls Q "30d" := by
  rw [get_last_timestamp_calls]
  simp [h, he, hne]

/-- The resolver never performs more than two calls, whatever the lookback. -/
theorem gltim_calls_le_two (Q : String → QueryResponse) (lb : String) :
    get_last_timestamp_calls Q lb ≤ 2 := by
  rw [get_last_timestamp_calls]
  rcases hr : (Q lb).result with _ | ⟨a, l⟩ <;> by_cases hs : is2xx (Q lb).status = false <;>
    by_cases hne : lb = "30d" <;> simp [hr, hs, hne, gltim_calls_30d]

/-- Against `Q_example`, the default `"1d"` resolution falls back to `"30d"`
and resolves the watermark parsed from the query value 1700000000. -/
theorem Q_example_resolves :
    get_last_timestamp_in_metric Q_example 0 "temperature_met" "1d"
      = .ok (from_timestamp 1700000000) := by
  rw [gltim_fallback Q_example 0 "temperature_met" "1d" (by decide) (by decide) (by decide)]
  rw [get_last_timestamp_in_metric]
  simp [Q_example, is2xx]

/-- On nonnegative times (every real epoch timestamp), the truncation in
`int_timestamp` is the floor. -/
theorem int_timestamp_eq_floor (t : ℚ) (ht : 0 ≤ t) : int_timestamp t = ⌊t⌋ := by
  rw [int_timestamp, Rat.floor_def]
  exact Int.tdiv_eq_ediv (Rat.num_nonneg.mpr ht) (by positivity)

/-- The `try` block itself never produces the `Failed` outcome: that outcome
only arises from the `except` clause. -/
theorem body_ok_not_failed (st : Option DateTime) (et som : DateTime) (sid mn : String)
    (env : MetricEnv) (o : MetricOutcome)
    (h : process_metric_body st et som sid mn env = .ok o) : is_failed o = false := by
  rw [process_metric_body] at h
  rcases hres : resolve_start st env.query som mn with e | s <;> simp [hres] at h
  by_cases hwin : et < s
  · simp [hwin] at h
    simp [← h, is_failed]
  · simp [hwin] at h
    rcases hfetch : get_observation_samples env.api mn sid with e | ts
    · simp [hfetch] at h
    · simp [hfetch] at h
      by_cases hw : is2xx env.writeStatus = true
      · simp [hw] at h
        simp [← h, is_failed]
      · simp [hw] at h
        simp [← h, is_failed]

/-- A `Failed` outcome always carries an exception message that does not
contain `No data found`. -/
theorem process_metric_failed_msg (st : Option DateTime) (et som : DateTime)
    (sid mn : String) (env : MetricEnv) (msg : String)
    (h : process_metric st et som sid mn env = .failed msg) :
    pyIn "No data found" msg = false := by
  rw [process_metric] at h
  rcases hb : process_metric_body st et som sid mn env with e | o
  · simp [hb] at h
    by_cases hp : pyIn "No data found" e = true <;> simp [hp] at h
    rw [← h]
    simpa using hp
  · simp [hb] at h
    have hnf := body_ok_not_failed st et som sid mn env o hb
    rw [h] at hnf
    simp [is_failed] at hnf

theorem error_count_append (a b : List MetricOutcome) :
    error_count (a ++ b) = error_count a + error_count b := by
  simp [error_count, List.countP_append]

theorem error_count_cons (o : MetricOutcome) (l : List MetricOutcome) :
    error_count (o :: l) = (if is_failed o then 1 else 0) + error_count l := by
  simp [error_count, List.countP_cons]
  by_cases h : is_failed o
  · simp [h]
    omega
  · simp [h]

/-- The loop processes the catalog pointwise: the outcomes around any one
entry are exactly the outcomes of the other entries. -/
theorem run_metrics_append (st : Option DateTime) (et som : DateTime) (sid : String)
    (pre post : List MetricJob) (j : MetricJob) :
    run_metrics st et som sid (pre ++ j :: post)
      = run_metrics st et som sid pre
        ++ process_metric st et som sid j.metric_name j.env
          :: run_metrics st et som sid post := by
  simp [run_metrics]

theorem exit_code_pos_iff (outs : List MetricOutcome) :
    exit_code outs ≠ 0 ↔ 0 < error_count outs := by
  rw [exit_code]
  by_cases h : 0 < error_count outs <;> simp [h]

/-- A resolved start after the run end time short-circuits the iteration to
`SkippedInvalidWindow`. -/
theorem process_metric_invalid_window (st : Option DateTime) (et som : DateTime)
    (sid mn : String) (env : MetricEnv) (s : DateTime)
    (hres : resolve_start st env.query som mn = .ok s) (hlt : et < s) :
    process_metric st et som sid mn env = .skippedInvalidWindow := by
  simp [process_metric, process_metric_body, hres, hlt]

/-- When every measurement has at least one observation, the sample builder is
exactly an order-preserving map over the measurement list. -/
theorem mapM_build_sample (l : List Measurement) (h : ∀ m ∈ l, m.observations ≠ []) :
    l.mapM build_sample = some (l.map fun m =>
      { timestampMillis := 1000 * int_timestamp m.referenceTime
        value := m.observations.headI.value }) := by
  induction l with
  | nil => rfl
  | cons a l ih =>
    have ha : a.observations ≠ [] := h a (List.mem_cons_self a l)
    have htail := ih fun m hm => h m (List.mem_cons_of_mem a hm)
    rcases ho : a.observations with _ | ⟨o, rest⟩
    · exact absurd ho ha
    · rw [List.mapM_cons, htail]
      simp [build_sample, ho, List.headI]

/-! ### Claims -/

/-- Claim C1, counterexample.  The claim states that without an explicit
run-level window the fetch window start is the resolved watermark plus exactly
1 millisecond.  Against `Q_example` the watermark resolves to unix second
1700000000 (2023-11-14T22:13:20Z), but the window start computed by `main` is
1700000001 s (2023-11-14T22:13:21Z), which is not the watermark plus one
millisecond: `pendulum.duration(0, 1)` is one SECOND (days=0, seconds=1). -/
theorem C1_counterexample :
    get_last_timestamp_in_metric Q_example 0 "temperature_met" "1d"
      = .ok (from_timestamp 1700000000) ∧
    resolve_start none Q_example 0 "temperature_met" = .ok 1700000001 ∧
    (Except.ok 1700000001 : Except String DateTime)
      ≠ .ok (from_timestamp 1700000000 + 1 / 1000) := by
  refine ⟨Q_example_resolves, ?_, by simp [from_timestamp]; norm_num⟩
  rw [resolve_start, Q_example_resolves]
  simp [Except.map, pendulum_duration, from_timestamp]
  norm_num

/-- Claim C1 as amended: for every metric processed without an explicit
run-level window, the fetch window start equals the resolved watermark plus
exactly 1 second (`pendulum.duration(0, 1)` is days=0, seconds=1). -/
theorem C1_window_start_one_second (Q : String → QueryResponse) (som : DateTime)
    (m : String) (w : DateTime)
    (h : get_last_timestamp_in_metric Q som m "1d" = .ok w) :
    resolve_start none Q som m = .ok (w + 1) ∧ pendulum_duration 0 1 = 1 := by
  constructor
  · rw [resolve_start, h]
    simp [Except.map, pendulum_duration]
  · simp [pendulum_duration]

/-- Witness for C1: with the watermark resolved from query value 1700000000,
the window start is 1700000000 + 1 seconds, i.e. 2023-11-14T22:13:21Z. -/
theorem C1_window_start_one_second_witness :
    get_last_timestamp_in_metric Q_example 0 "temperature_met" "1d"
      = .ok (from_timestamp 1700000000) ∧
    resolve_start none Q_example 0 "temperature_met"
      = .ok (from_timestamp 1700000000 + 1) := by
  exact ⟨Q_example_resolves,
    (C1_window_start_one_second Q_example 0 "temperature_met" (from_timestamp 1700000000)
      Q_example_resolves).1⟩

/-- Claim C2, counterexample.  The claim states that a non-2xx write response
is counted as that metric's failure in the run's failure counter.  In the
code the non-2xx write is only logged: with a single metric whose write
returns 500, `error_count` stays 0 and the process exits 0. -/
theorem C2_counterexample :
    process_metric (some 0) 10 0 "SN19780" "temperature_met" env500 = .writeFailed 500 ∧
    error_count (run_metrics (some 0) 10 0 "SN19780"
      [{ element_id := "air_temperature", metric_name := "temperature_met",
         env := env500 }]) = 0 ∧
    exit_code (run_metrics (some 0) 10 0 "SN19780"
      [{ element_id := "air_temperature", metric_name := "temperature_met",
         env := env500 }]) = 0 := by
  exact ⟨rfl, rfl, rfl⟩

/-- Claim C2 as amended: a write response with status in [200,300) is treated
as success and any other status as a failure that is logged without raising
(204 is a success, 500 a failure), but a non-2xx write response does NOT
increment the run's failure counter (only exceptions do). -/
theorem C2_write_classification (st : Option DateTime) (et som : DateTime)
    (sid mn : String) (env : MetricEnv) (s : DateTime) (ts : TimeSeries)
    (hres : resolve_start st env.query som mn = .ok s)
    (hwin : ¬ et < s)
    (hfetch : get_observation_samples env.api mn sid = .ok ts) :
    is2xx 204 = true ∧ is2xx 500 = false ∧
    process_metric st et som sid mn env
      = (if is2xx env.writeStatus then .succeeded else .writeFailed env.writeStatus) ∧
    is_failed (process_metric st et som sid mn env) = false := by
  have hb : process_metric st et som sid mn env
      = (if is2xx env.writeStatus then .succeeded else .writeFailed env.writeStatus) := by
    simp [process_metric, process_metric_body, hres, hwin, hfetch]
    by_cases hw : is2xx env.writeStatus = true
    · simp [hw]
    · simp [hw]
  refine ⟨by decide, by decide, hb, ?_⟩
  rw [hb]
  by_cases hw : is2xx env.writeStatus = true
  · simp [hw, is_failed]
  · simp [hw, is_failed]

/-- Witness for C2: a metric that reaches the write with status 204 succeeds. -/
theorem C2_write_classification_witness :
    resolve_start (some 0) envOk.query 0 "temperature_met" = .ok 0 ∧
    ¬ (10 : ℚ) < 0 ∧
    get_observation_samples envOk.api "temperature_met" "SN19780"
      = .ok { labels := [("__name__", "temperature_met"), ("location", "outside"),
                         ("sensor", "SN19780")], samples := [] } ∧
    process_metric (some 0) 10 0 "SN19780" "temperature_met" envOk = .succeeded := by
  have T := C2_write_classification (some 0) 10 0 "SN19780" "temperature_met" envOk 0
    { labels := [("__name__", "temperature_met"), ("location", "outside"),
                 ("sensor", "SN19780")], samples := [] } rfl (by decide) rfl
  exact ⟨rfl, by decide, rfl, T.2.2.1.trans (by decide)⟩

/-- Claim C3: a metric whose watermark query returns an empty result at the
1-day lookback is retried exactly once with the 30-day lookback (one extra
call, and a resolution starting at 30d performs a single call, so it never
recurses further); if that tier is also empty, the resolver returns the start
of the current calendar month. -/
theorem C3_tiered_lookback (Q : String → QueryResponse) (som : DateTime) (m : String)
    (h1 : is2xx (Q "1d").status = true) (he : (Q "1d").result = []) :
    get_last_timestamp_in_metric Q som m "1d"
      = get_last_timestamp_in_metric Q som m "30d" ∧
    get_last_timestamp_calls Q "1d" = 1 + get_last_timestamp_calls Q "30d" ∧
    get_last_timestamp_calls Q "30d" = 1 ∧
    (is2xx (Q "30d").status = true → (Q "30d").result = [] →
      get_last_timestamp_in_metric Q som m "1d" = .ok som) := by
  refine ⟨gltim_fallback Q som m "1d" h1 he (by decide),
    gltim_calls_fallback Q "1d" h1 he (by decide),
    gltim_calls_30d Q, fun h2 he2 => ?_⟩
  rw [gltim_fallback Q som m "1d" h1 he (by decide)]
  exact gltim_30d_empty Q som m h2 he2

/-- Witness for C3: with no stored data at any tier, the `"1d"` resolution
equals the `"30d"` resolution and returns the start of the month (123). -/
theorem C3_tiered_lookback_witness :
    is2xx (Q_empty "1d").status = true ∧ (Q_empty "1d").result = [] ∧
    get_last_timestamp_in_metric Q_empty 123 "temperature_met" "1d"
      = get_last_timestamp_in_metric Q_empty 123 "temperature_met" "30d" ∧
    get_last_timestamp_in_metric Q_empty 123 "temperature_met" "1d" = .ok 123 := by
  have T := C3_tiered_lookback Q_empty 123 "temperature_met" (by decide) (by decide)
  exact ⟨by decide, by decide, T.1, T.2.2.2 (by decide) (by decide)⟩

/-- Claim C4: the metric loop is failure-isolated.  Around any one catalog
entry the remaining entries are still processed, producing their own
outcomes; a `Failed` outcome always carries a message not containing
`No data found`; each such failure contributes exactly one to the run's
failure counter; and the process exits nonzero iff the counter is positive. -/
theorem C4_failure_isolation (st : Option DateTime) (et som : DateTime) (sid : String)
    (pre post : List MetricJob) (j : MetricJob) :
    run_metrics st et som sid (pre ++ j :: post)
      = run_metrics st et som sid pre
        ++ process_metric st et som sid j.metric_name j.env
          :: run_metrics st et som sid post ∧
    (∀ msg, process_metric st et som sid j.metric_name j.env = .failed msg →
      pyIn "No data found" msg = false) ∧
    error_count (run_metrics st et som sid (pre ++ j :: post))
      = error_count (run_metrics st et som sid pre)
        + (if is_failed (process_metric st et som sid j.metric_name j.env) then 1 else 0)
        + error_count (run_metrics st et som sid post) ∧
    (exit_code (run_metrics st et som sid (pre ++ j :: post)) ≠ 0 ↔
      0 < error_count (run_metrics st et som sid (pre ++ j :: post))) := by
  refine ⟨run_metrics_append st et som sid pre post j,
    fun msg hm => process_metric_failed_msg st et som sid j.metric_name j.env msg hm,
    ?_, exit_code_pos_iff _⟩
  rw [run_metrics_append st et som sid pre post j, error_count_append, error_count_cons]
  by_cases hf : is_failed (process_metric st et som sid j.metric_name j.env)
  · simp [hf]
    omega
  · simp [hf]

/-- Witness for C4: a failing first metric contributes one failure, the run
exits nonzero, and the second metric is still processed. -/
theorem C4_failure_isolation_witness :
    process_metric (some 0) 10 0 "SN19780" jobFail.metric_name jobFail.env
      = .failed "boom - bad" ∧
    pyIn "No data found" "boom - bad" = false ∧
    error_count (run_metrics (some 0) 10 0 "SN19780" ([] ++ jobFail :: [jobOk]))
      = error_count (run_metrics (some 0) 10 0 "SN19780" [])
        + 1 + error_count (run_metrics (some 0) 10 0 "SN19780" [jobOk]) ∧
    (exit_code (run_metrics (some 0) 10 0 "SN19780" ([] ++ jobFail :: [jobOk])) ≠ 0 ↔
      0 < error_count (run_metrics (some 0) 10 0 "SN19780" ([] ++ jobFail :: [jobOk]))) := by
  have T := C4_failure_isolation (some 0) 10 0 "SN19780" [] [jobOk] jobFail
  have hf : is_failed (process_metric (some 0) 10 0 "SN19780" jobFail.metric_name
      jobFail.env) = true := rfl
  refine ⟨rfl, T.2.1 "boom - bad" rfl, ?_, T.2.2.2⟩
  have h3 := T.2.2.1
  rw [hf] at h3
  simpa using h3

/-- Claim C5: a metric whose iteration raises an error containing
`No data found` is skipped as benign: its outcome is `SkippedNoData`, the
failure counter is unchanged, and the remaining metrics are still processed. -/
theorem C5_no_data_skip (st : Option DateTime) (et som : DateTime) (sid : String)
    (pre post : List MetricJob) (j : MetricJob) (msg : String)
    (herr : process_metric_body st et som sid j.metric_name j.env = .error msg)
    (hmsg : pyIn "No data found" msg = true) :
    process_metric st et som sid j.metric_name j.env = .skippedNoData ∧
    run_metrics st et som sid (pre ++ j :: post)
      = run_metrics st et som sid pre
        ++ .skippedNoData :: run_metrics st et som sid post ∧
    error_count (run_metrics st et som sid (pre ++ j :: post))
      = error_count (run_metrics st et som sid pre)
        + error_count (run_metrics st et som sid post) := by
  have hp : process_metric st et som sid j.metric_name j.env = .skippedNoData := by
    simp [process_metric, herr, hmsg]
  refine ⟨hp, ?_, ?_⟩
  · rw [run_metrics_append st et som sid pre post j, hp]
  · rw [run_metrics_append st et som sid pre post j, error_count_append, error_count_cons, hp]
    simp [is_failed]

/-- Witness for C5: a frost no-data error yields `SkippedNoData` and leaves
the failure counter at the count of the other metrics alone. -/
theorem C5_no_data_skip_witness :
    process_metric_body (some 0) 10 0 "SN19780" jobNoData.metric_name jobNoData.env
      = .error "No data found - check your parameters" ∧
    pyIn "No data found" "No data found - check your parameters" = true ∧
    process_metric (some 0) 10 0 "SN19780" jobNoData.metric_name jobNoData.env
      = .skippedNoData ∧
    error_count (run_metrics (some 0) 10 0 "SN19780" ([] ++ jobNoData :: [jobOk]))
      = error_count (run_metrics (some 0) 10 0 "SN19780" [])
        + error_count (run_metrics (some 0) 10 0 "SN19780" [jobOk]) := by
  have T := C5_no_data_skip (some 0) 10 0 "SN19780" [] [jobOk] jobNoData
    "No data found - check your parameters" rfl (by decide)
  exact ⟨rfl, by decide, T.1, T.2.2⟩

/-- Claim C6: a metric whose computed window has end strictly before start is
skipped without fetching (the outcome does not depend on the observation
endpoint or the write endpoint at all) and the failure counter is unchanged. -/
theorem C6_invalid_window_skip (st : Option DateTime) (et som : DateTime) (sid : String)
    (pre post : List MetricJob) (j : MetricJob) (s : DateTime)
    (hres : resolve_start st j.env.query som j.metric_name = .ok s)
    (hlt : et < s) :
    process_metric st et som sid j.metric_name j.env = .skippedInvalidWindow ∧
    (∀ api w, process_metric st et som sid j.metric_name
        { query := j.env.query, api := api, writeStatus := w } = .skippedInvalidWindow) ∧
    error_count (run_metrics st et som sid (pre ++ j :: post))
      = error_count (run_metrics st et som sid pre)
        + error_count (run_metrics st et som sid post) := by
  have hp : process_metric st et som sid j.metric_name j.env = .skippedInvalidWindow :=
    process_metric_invalid_window st et som sid j.metric_name j.env s hres hlt
  refine ⟨hp, fun api w => process_metric_invalid_window st et som sid j.metric_name
    { query := j.env.query, api := api, writeStatus := w } s hres hlt, ?_⟩
  rw [run_metrics_append st et som sid pre post j, error_count_append, error_count_cons, hp]
  simp [is_failed]

/-- Witness for C6: an explicit window with end 1 before start 5 is skipped,
whatever the fetch and write would have answered, and counts no failure. -/
theorem C6_invalid_window_skip_witness :
    resolve_start (some 5) jobOk.env.query 0 jobOk.metric_name = .ok 5 ∧
    (1 : ℚ) < 5 ∧
    process_metric (some 5) 1 0 "SN19780" jobOk.metric_name jobOk.env
      = .skippedInvalidWindow ∧
    process_metric (some 5) 1 0 "SN19780" jobOk.metric_name
      { query := jobOk.env.query, api := envBoom.api, writeStatus := 500 }
      = .skippedInvalidWindow ∧
    error_count (run_metrics (some 5) 1 0 "SN19780" ([] ++ jobOk :: [])) = 0 := by
  have T := C6_invalid_window_skip (some 5) 1 0 "SN19780" [] [] jobOk 5 rfl (by decide)
  exact ⟨rfl, by decide, T.1, T.2.1 envBoom.api 500, by simpa using T.2.2⟩

/-- Claim C7: a watermark query answered with a status outside [200,300)
raises the query error (with the upstream body in the message), performs no
further query (a single call), and never returns any timestamp, so neither
the lookback-widening fallback nor the start-of-month default can be
triggered. -/
theorem C7_query_error_fatal (Q : String → QueryResponse) (som : DateTime) (m lb : String)
    (h : is2xx (Q lb).status = false) :
    get_last_timestamp_in_metric Q som m lb
      = .error ("Unable to get last timestamp of " ++ m ++ ": " ++ (Q lb).text) ∧
    get_last_timestamp_calls Q lb = 1 ∧
    ∀ t : DateTime, get_last_timestamp_in_metric Q som m lb ≠ .ok t := by
  refine ⟨?_, ?_, ?_⟩
  · rw [get_last_timestamp_in_metric]
    simp [h]
  · rw [get_last_timestamp_calls]
    simp [h]
  · intro t hc
    rw [get_last_timestamp_in_metric] at hc
    simp [h] at hc

/-- Witness for C7: a 503 from the store is fatal even though its body holds
a value: one call, an error, and no resolved timestamp. -/
theorem C7_query_error_fatal_witness :
    is2xx (Q_unavailable "1d").status = false ∧
    get_last_timestamp_in_metric Q_unavailable 0 "humidity_met" "1d"
      = .error "Unable to get last timestamp of humidity_met: Service Unavailable" ∧
    get_last_timestamp_calls Q_unavailable "1d" = 1 ∧
    get_last_timestamp_in_metric Q_unavailable 0 "humidity_met" "1d" ≠ .ok 5 := by
  have T := C7_query_error_fatal Q_unavailable 0 "humidity_met" "1d" (by decide)
  exact ⟨by decide, T.1, T.2.1, T.2.2 5⟩

/-- Claim C8: each built sample pairs the measurement's reference time
truncated to whole seconds (the truncation is the floor on nonnegative
times) and multiplied by 1000, with the first observation's parsed value;
a reference time of 2023-01-01T00:00:05Z (unix second 1672531205) yields
timestampMillis 1672531205000. -/
theorem C8_sample_conversion (m : Measurement) (o : Observation) (rest : List Observation)
    (h : m.observations = o :: rest) :
    build_sample m = some { timestampMillis := 1000 * int_timestamp m.referenceTime
                            value := o.value } ∧
    (∀ t : ℚ, 0 ≤ t → int_timestamp t = ⌊t⌋) ∧
    1000 * int_timestamp (from_timestamp 1672531205) = 1672531205000 := by
  refine ⟨?_, fun t ht => int_timestamp_eq_floor t ht, by decide⟩
  rw [build_sample, h]
  rfl

/-- Witness for C8: the 2023-01-01T00:00:05Z measurement builds the sample
with timestampMillis 1672531205000 and the first observation value. -/
theorem C8_sample_conversion_witness :
    meas_example.observations = { value := 5 } :: [] ∧
    build_sample meas_example = some { timestampMillis := 1672531205000, value := 5 } := by
  have T := C8_sample_conversion meas_example { value := 5 } [] rfl
  exact ⟨rfl, T.1.trans (by decide)⟩

/-- Claim C9: the sample-building transform is deterministic (two runs on the
same parsed response and metric spec give the same result) and its samples
are exactly the order-preserving map of the measurement list: no sorting and
no deduplication. -/
theorem C9_deterministic_order (resp : ApiResponse) (mn sid : String)
    (hne : resp.error = none) (hobs : ∀ m ∈ resp.data, m.observations ≠ []) :
    get_observation_samples resp mn sid = get_observation_samples resp mn sid ∧
    get_observation_samples resp mn sid
      = .ok { labels := [("__name__", mn), ("location", "outside"), ("sensor", sid)]
              samples := resp.data.map fun m =>
                { timestampMillis := 1000 * int_timestamp m.referenceTime
                  value := m.observations.headI.value } } := by
  refine ⟨rfl, ?_⟩
  have hm := mapM_build_sample resp.data hobs
  simp only [get_observation_samples, hne, hm]

/-- Witness for C9: an unsorted measurement list with a duplicate is mapped
to samples in the same order, duplicate included, taking only the first of
two observations. -/
theorem C9_deterministic_order_witness :
    resp_example.error = none ∧
    get_observation_samples resp_example "temperature_met" "SN19780"
      = .ok { labels := [("__name__", "temperature_met"), ("location", "outside"),
                         ("sensor", "SN19780")]
              samples := [{ timestampMillis := 10000, value := 2 },
                          { timestampMillis := 5000, value := 3 },
                          { timestampMillis := 10000, value := 2 }] } := by
  have T := C9_deterministic_order resp_example "temperature_met" "SN19780" rfl (by decide)
  exact ⟨rfl, T.2.trans (by rfl)⟩

/-- Claim C10: for every metric name and every lookback string the resolver
terminates within two calls: an empty 2xx result at a lookback other than
`"30d"` causes exactly one recursive call with `"30d"`, and an empty 2xx
result at `"30d"` returns the start-of-month default in a single call. -/
theorem C10_bounded_depth (Q : String → QueryResponse) (som : DateTime) (m lb : String) :
    get_last_timestamp_calls Q lb ≤ 2 ∧
    (is2xx (Q lb).status = true → (Q lb).result = [] → lb ≠ "30d" →
      get_last_timestamp_in_metric Q som m lb = get_last_timestamp_in_metric Q som m "30d" ∧
      get_last_timestamp_calls Q lb = 1 + get_last_timestamp_calls Q "30d") ∧
    (is2xx (Q "30d").status = true → (Q "30d").result = [] →
      get_last_timestamp_in_metric Q som m "30d" = .ok som ∧
      get_last_timestamp_calls Q "30d" = 1) := by
  refine ⟨gltim_calls_le_two Q lb, fun h he hne =>
    ⟨gltim_fallback Q som m lb h he hne, gltim_calls_fallback Q lb h he hne⟩,
    fun h2 he2 => ⟨gltim_30d_empty Q som m h2 he2, gltim_calls_30d Q⟩⟩

/-- Witness for C10: with an arbitrary non-30d lookback string (7d) and no
stored data, the call count is bounded by two, the fallback recurses exactly
once, and the 30d tier resolves to the start-of-month default. -/
theorem C10_bounded_depth_witness :
    get_last_timestamp_calls Q_empty "7d" ≤ 2 ∧
    get_last_timestamp_in_metric Q_empty 7 "humidity_met" "7d"
      = get_last_timestamp_in_metric Q_empty 7 "humidity_met" "30d" ∧
    get_last_timestamp_calls Q_empty "7d" = 1 + get_last_timestamp_calls Q_empty "30d" ∧
    get_last_timestamp_in_metric Q_empty 7 "humidity_met" "30d" = .ok 7 := by
  have T := C10_bounded_depth Q_empty 7 "humidity_met" "7d"
  have T2 := T.2.1 (by decide) (by decide) (by decide)
  exact ⟨T.1, T2.1, T2.2, (T.2.2 (by decide) (by decide)).1⟩

end Frost
